import Mathlib

/-!
Verification of the LiteLLM language-model adapter (gepetto/models/litellm.py).

The file shallowly embeds the adapter's observable behavior:
  * `supported_models` / `is_configured_properly` (model discovery), with the
    HTTP layer abstracted as a `DiscoveryOutcome`;
  * `query_model` (blocking dispatch), with the OpenAI SDK call abstracted as
    an oracle `Request → SDKOutcome` giving the outcome of
    `client.chat.completions.create` on the outbound request;
  * `query_model_async` (worker-thread dispatch).

Python exceptions are modelled by the error constructors of the outcome types;
a total Lean function returning a plain value models a Python function from
which no exception escapes.  Observable effects (callback invocations and
printed messages) are collected as an ordered `List Event`.
-/

namespace LiteLLM

/-- One role/content message of a chat conversation. -/
structure ChatMessage where
  role : String
  content : String
deriving DecidableEq, Repr

/-- The value passed as the `messages` argument of the SDK call.  Python is
dynamically typed: when the query is not recognised as a plain string it is
passed through unchanged, so a string that escapes the `type(query) is str`
test reaches the SDK as a raw string rather than as a message list. -/
inductive MessagesArg where
  | list (l : List ChatMessage)
  | rawStr (s : String)
deriving DecidableEq, Repr

/-- The `query` argument of `query_model`.  `str` is a value whose runtime
type is exactly `str`; `strSub` is an instance of a proper subclass of `str`
(for which `type(query) is str` is false); `msgs` is a message list. -/
inductive QueryVal where
  | str (s : String)
  | strSub (s : String)
  | msgs (l : List ChatMessage)
deriving DecidableEq, Repr

/-- The outbound chat-completion request handed to
`client.chat.completions.create`. -/
structure Request where
  model : String
  messages : MessagesArg
  stream : Bool
  options : List (String × String)
deriving DecidableEq, Repr

/-- Input normalization of `query_model`: `if type(query) is str:` wrap as a
single user-role message, `else:` pass the value through unchanged. -/
def normalize_query : QueryVal → MessagesArg
  | .str s => .list [⟨"user", s⟩]
  | .strSub s => .rawStr s
  | .msgs l => .list l

/-- The outbound request built by `query_model` before the SDK call. -/
def build_request (model : String) (query : QueryVal) (stream : Bool)
    (options : List (String × String)) : Request :=
  ⟨model, normalize_query query, stream, options⟩

/-- Non-streaming response message (`response.choices[i].message`). -/
structure RespMessage where
  content : String
deriving DecidableEq, Repr

/-- Non-streaming response choice. -/
structure RespChoice where
  message : RespMessage
deriving DecidableEq, Repr

/-- Non-streaming SDK response. -/
structure Response where
  choices : List RespChoice
deriving DecidableEq, Repr

/-- Streaming delta (`chunk.choices[i].delta`).  `content = none` models a
delta object without a `content` attribute, the case the source's
`hasattr(delta, "content")` test guards against. -/
structure Delta where
  content : Option String
deriving DecidableEq, Repr

/-- Streaming chunk choice. -/
structure ChunkChoice where
  delta : Delta
  finish_reason : Option String
deriving DecidableEq, Repr

/-- One streaming chunk. -/
structure Chunk where
  choices : List ChunkChoice
deriving DecidableEq, Repr

/-- Outcome of the SDK call `client.chat.completions.create`.
`nonStream` / `streamChunks` are successful returns (a full response object,
or the iterable of chunks the stream yields); the remaining constructors are
the raised exceptions, split by the classes the source discriminates:
`openai.BadRequestError`, any other `openai.OpenAIError`, and any other
`Exception`.  `msg` is `str(e)`. -/
inductive SDKOutcome where
  | nonStream (resp : Response)
  | streamChunks (chunks : List Chunk)
  | badRequestError (msg : String)
  | openAIError (msg : String)
  | otherError (msg : String)
deriving DecidableEq, Repr

/-- True on the constructors of `SDKOutcome` that model a raised exception. -/
def SDKOutcome.isFailure : SDKOutcome → Bool
  | .nonStream _ => false
  | .streamChunks _ => false
  | .badRequestError _ => true
  | .openAIError _ => true
  | .otherError _ => true

/-- Observable effects of a dispatch, in order of occurrence.
`marshaledCallback` is `ida_kernwin.execute_sync(functools.partial(cb,
response=text), ida_kernwin.MFF_WRITE)`: the callback invocation marshaled
onto the host's UI-safe execution context.  `chunkCallback` is a direct
`cb(content, finished)` call on the worker.  `printed` is console output. -/
inductive Event where
  | marshaledCallback (response : String)
  | chunkCallback (content : String) (finished : Option String)
  | printed (msg : String)
deriving DecidableEq, Repr

/-- True on callback-invocation events. -/
def Event.isCallback : Event → Bool
  | .marshaledCallback _ => true
  | .chunkCallback _ _ => true
  | .printed _ => false

/-- Strip a literal from the front of a character list, returning the rest. -/
def stripLit : List Char → List Char → Option (List Char)
  | [], rest => some rest
  | _ :: _, [] => none
  | c :: cs, d :: ds => if c = d then stripLit cs ds else none

/-- Drop a maximal run of leading decimal digits. -/
def dropDigits : List Char → List Char
  | [] => []
  | c :: cs => if c.isDigit then dropDigits cs else c :: cs

/-- Consume one-or-more decimal digits (the regex atom matching a number),
returning the rest, or `none` when no digit leads. -/
def takeDigits1 : List Char → Option (List Char)
  | [] => none
  | c :: cs => if c.isDigit then some (dropDigits cs) else none

/-- Match the context-length regex at the head of the list. -/
def matchCtxAt (l : List Char) : Bool :=
  match stripLit "maximum context length is ".toList l with
  | none => false
  | some r1 =>
    match takeDigits1 r1 with
    | none => false
    | some r2 =>
      match stripLit " tokens, however you requested ".toList r2 with
      | none => false
      | some r3 =>
        match takeDigits1 r3 with
        | none => false
        | some r4 => (stripLit " tokens".toList r4).isSome

/-- Search the regex at every position of the list. -/
def searchCtx : List Char → Bool
  | [] => matchCtxAt []
  | c :: cs => matchCtxAt (c :: cs) || searchCtx cs

/-- The source's `re.search(r'maximum context length is \d+ tokens, however
you requested \d+ tokens', str(e))` as a Boolean on the error text. -/
def matchesCtxPattern (s : String) : Bool :=
  searchCtx s.toList

/-- Message printed for a context-length-exceeded `BadRequestError`. -/
def tooBigMsg : String :=
  "Unfortunately, this function is too big to be analyzed with the model's current API limits."

/-- Message template `"General exception encountered while running the query: {error}"`
after `.format(error=err)`. -/
def generalExceptionMsg (err : String) : String :=
  "General exception encountered while running the query: " ++ err

/-- Message template `"{model} could not complete the request: {error}"`
after `.format(model=model, error=err)`. -/
def couldNotCompleteMsg (model err : String) : String :=
  model ++ " could not complete the request: " ++ err

/-- The `str(e)` of the `IndexError` raised by indexing an empty `choices`. -/
def indexErrorMsg : String := "list index out of range"

/-- Placeholder error text for the (unreachable with a real SDK) case where
the shape of the returned object disagrees with the `stream` flag and the
duck-typed access raises. -/
def typeMismatchMsg : String := "type mismatch between stream flag and response"

/-- The `for chunk in response:` loop of the streaming path.  Each chunk
yields one direct `cb(content, finished)` call, where `content` is
`delta.content if hasattr(delta, "content") else ""` and `finished` is
`chunk.choices[0].finish_reason`.  A chunk with an empty `choices` list makes
the indexing raise; the loop stops there and the second component carries the
error text for the surrounding handler. -/
def streamLoop : List Chunk → List Event × Option String
  | [] => ([], none)
  | c :: rest =>
    match c.choices with
    | [] => ([], some indexErrorMsg)
    | ch :: _ =>
      let ev := Event.chunkCallback (ch.delta.content.getD "") ch.finish_reason
      let (evs, err) := streamLoop rest
      (ev :: evs, err)

/-- The event a well-formed chunk (nonempty `choices`) contributes. -/
def chunkEvent (c : Chunk) : Option Event :=
  match c.choices with
  | [] => none
  | ch :: _ => some (.chunkCallback (ch.delta.content.getD "") ch.finish_reason)

/-- LiteLLM.query_model.  Builds the outbound request, performs the SDK call
(abstracted by the oracle `sdk`), and returns the ordered list of observable
effects.  The `try/except` ladder of the source catches
`openai.BadRequestError` (retesting the message against the context-length
regex), then `openai.OpenAIError`, then `Exception`; every failure ends in a
single printed message.  The total return type models that no exception
escapes `query_model`. -/
def query_model (model : String) (query : QueryVal) (stream : Bool)
    (options : List (String × String)) (sdk : Request → SDKOutcome) :
    List Event :=
  let req := build_request model query stream options
  match sdk req with
  | .badRequestError msg =>
    if matchesCtxPattern msg then [.printed tooBigMsg]
    else [.printed (generalExceptionMsg msg)]
  | .openAIError msg => [.printed (couldNotCompleteMsg model msg)]
  | .otherError msg => [.printed (generalExceptionMsg msg)]
  | .nonStream resp =>
    if stream then
      [.printed (generalExceptionMsg typeMismatchMsg)]
    else
      match resp.choices with
      | [] => [.printed (generalExceptionMsg indexErrorMsg)]
      | c :: _ => [.marshaledCallback c.message.content]
  | .streamChunks chunks =>
    if stream then
      match streamLoop chunks with
      | (evs, none) => evs
      | (evs, some m) => evs ++ [.printed (generalExceptionMsg m)]
    else
      [.printed (generalExceptionMsg typeMismatchMsg)]

/-- Result of `query_model_async`: `callerEvents` are the effects performed on
the caller's thread before the method returns (the source only constructs and
starts a `threading.Thread`, so none); `workerEvents` is the trace of the
spawned worker, which runs `query_model` with the same arguments.  The method
returns no value to its caller. -/
structure AsyncDispatch where
  callerEvents : List Event
  workerEvents : List Event
deriving DecidableEq, Repr

/-- LiteLLM.query_model_async: `threading.Thread(target=self.query_model,
args=[query, cb, stream, additional_model_options]).start()`. -/
def query_model_async (model : String) (query : QueryVal) (stream : Bool)
    (options : List (String × String)) (sdk : Request → SDKOutcome) :
    AsyncDispatch :=
  { callerEvents := []
    workerEvents := query_model model query stream options sdk }

/-- One entry of the discovery endpoint's JSON `data` array.  `id` and
`object` are `none` when the key is absent (`model["id"]` raises `KeyError`,
`model.get("object")` returns `None`). -/
structure MEntry where
  id : Option String
  object : Option String
deriving DecidableEq, Repr

/-- Outcome of the discovery HTTP interaction: the configured server URL is
falsy (`noServer`), `requests.get` or `raise_for_status` raises a
`requests.RequestException` — covering network failures and non-success HTTP
statuses (`requestError`) — or the body parses and `.get("data", [])` yields
the entry list (`ok`; a missing `data` key yields `ok []`). -/
inductive DiscoveryOutcome where
  | noServer
  | requestError
  | ok (data : List MEntry)
deriving DecidableEq, Repr

/-- The list comprehension
`[model["id"] for model in data if model.get("object") == "model"]`.
An entry that passes the filter but lacks an `id` key raises `KeyError`,
which `supported_models` does not catch; `Except` carries that escape. -/
def modelIds : List MEntry → Except String (List String)
  | [] => .ok []
  | e :: rest =>
    if e.object = some "model" then
      match e.id with
      | none => .error "KeyError"
      | some i => (modelIds rest).map (fun l => i :: l)
    else
      modelIds rest

/-- LiteLLM.supported_models: empty list when no server is configured or any
`requests.RequestException` occurs; otherwise the filtered projection of the
`data` array. -/
def supported_models : DiscoveryOutcome → Except String (List String)
  | .noServer => .ok []
  | .requestError => .ok []
  | .ok data => modelIds data

/-- LiteLLM.is_configured_properly: `len(LiteLLM.supported_models()) > 0`. -/
def is_configured_properly (o : DiscoveryOutcome) : Except String Bool :=
  (supported_models o).map (fun l => decide (0 < l.length))

/-- Example stream from the spec: two content chunks, then a final chunk with
a finish marker and no content attribute. -/
def chunksEx : List Chunk :=
  [⟨[⟨⟨some "Hel"⟩, none⟩]⟩, ⟨[⟨⟨some "lo"⟩, none⟩]⟩, ⟨[⟨⟨none⟩, some "stop"⟩]⟩]

/-- Example discovery body from the spec:
one entry with object-type "model", one with object-type "other". -/
def dataEx : List MEntry :=
  [⟨some "gpt-x", some "model"⟩, ⟨some "ignore-me", some "other"⟩]

/-- A concrete error text matching the context-length regex. -/
def ctxMsgEx : String :=
  "maximum context length is 10 tokens, however you requested 20 tokens"

/- ### Helper lemmas -/

/-- On a stream whose chunks all have a nonempty `choices` list, the loop
completes without an exception and emits exactly one callback event per
chunk, in order. -/
theorem streamLoop_wf (chunks : List Chunk) (h : ∀ c ∈ chunks, c.choices ≠ []) :
    streamLoop chunks = (chunks.filterMap chunkEvent, none) := by
  induction chunks with
  | nil => rfl
  | cons c rest ih =>
    have hc : c.choices ≠ [] := h c (List.mem_cons_self _ _)
    have hrest := ih (fun x hx => h x (List.mem_cons_of_mem _ hx))
    match hcc : c.choices with
    | [] => exact absurd hcc hc
    | ch :: tl =>
      simp [streamLoop, chunkEvent, hcc, hrest, List.filterMap_cons]

/-- A chunk with a nonempty `choices` list contributes an event. -/
theorem chunkEvent_isSome {c : Chunk} (h : c.choices ≠ []) :
    (chunkEvent c).isSome := by
  match hcc : c.choices with
  | [] => exact absurd hcc h
  | ch :: tl => simp [chunkEvent, hcc]

/-- On a well-formed stream the per-chunk events are in bijection with the
chunks: one callback per chunk. -/
theorem filterMap_chunkEvent_length (chunks : List Chunk)
    (h : ∀ c ∈ chunks, c.choices ≠ []) :
    (chunks.filterMap chunkEvent).length = chunks.length := by
  induction chunks with
  | nil => rfl
  | cons c rest ih =>
    have hc : (chunkEvent c).isSome := chunkEvent_isSome (h c (List.mem_cons_self _ _))
    have hrest := ih (fun x hx => h x (List.mem_cons_of_mem _ hx))
    obtain ⟨ev, hev⟩ := Option.isSome_iff_exists.mp hc
    simp [List.filterMap_cons, hev, hrest]

/-- The list comprehension of `supported_models`, on data whose
model-entries all carry an `id` key, is the filtered `id` projection. -/
theorem modelIds_eq (data : List MEntry)
    (h : ∀ e ∈ data, e.object = some "model" → e.id.isSome) :
    modelIds data
      = .ok (data.filterMap
          (fun e => if e.object = some "model" then e.id else none)) := by
  induction data with
  | nil => rfl
  | cons e rest ih =>
    have hrest := ih (fun x hx hox => h x (List.mem_cons_of_mem _ hx) hox)
    by_cases ho : e.object = some "model"
    · obtain ⟨i, hi⟩ :=
        Option.isSome_iff_exists.mp (h e (List.mem_cons_self _ _) ho)
      simp [modelIds, ho, hi, hrest, List.filterMap_cons, Except.map]
    · simp [modelIds, ho, hrest, List.filterMap_cons]

/- ### Claim theorems -/

/-- C1: a streaming dispatch over chunks that each carry at least one choice
invokes the callback exactly once per chunk, in the order the chunks arrive,
with first argument the delta's content text (empty string when the delta
carries no content attribute) and second argument the chunk's finish marker,
populated exactly on the chunks that carry one. -/
theorem streaming_callback_per_chunk (model : String) (query : QueryVal)
    (options : List (String × String)) (chunks : List Chunk)
    (h : ∀ c ∈ chunks, c.choices ≠ []) :
    query_model model query true options (fun _ => .streamChunks chunks)
      = chunks.filterMap chunkEvent
    ∧ (chunks.filterMap chunkEvent).length = chunks.length := by
  refine ⟨?_, filterMap_chunkEvent_length chunks h⟩
  simp [query_model, streamLoop_wf chunks h]

/-- C1 witness: the spec's three-chunk stream (two content deltas, a final
chunk with only a finish marker) produces exactly three ordered callback
invocations, the last with empty content and the marker. -/
theorem streaming_callback_per_chunk_witness :
    (∀ c ∈ chunksEx, c.choices ≠ [])
    ∧ (query_model "gpt" (.str "q") true [] (fun _ => .streamChunks chunksEx)
        = chunksEx.filterMap chunkEvent
      ∧ (chunksEx.filterMap chunkEvent).length = chunksEx.length)
    ∧ chunksEx.filterMap chunkEvent
        = [.chunkCallback "Hel" none, .chunkCallback "lo" none,
           .chunkCallback "" (some "stop")] :=
  ⟨by decide, streaming_callback_per_chunk "gpt" (.str "q") [] chunksEx (by decide),
   by decide⟩

/-- C2 counterexample: a `BadRequestError` is an API-level error; when its
message does not match the context-length pattern the adapter prints the
general-exception message, not the "could not complete the request" one. -/
theorem api_error_general_message_counterexample :
    matchesCtxPattern "boom" = false
    ∧ query_model "gpt-4o" (.str "q") false [] (fun _ => .badRequestError "boom")
        = [.printed (generalExceptionMsg "boom")]
    ∧ generalExceptionMsg "boom" ≠ couldNotCompleteMsg "gpt-4o" "boom" :=
  ⟨by decide, rfl, by decide⟩

/-- C2 amended: an API-level error other than a `BadRequestError` prints
"<model> could not complete the request: <error>"; a `BadRequestError` whose
message does not match the context-length pattern prints the
general-exception message instead. -/
theorem api_error_message_amended (model : String) (query : QueryVal)
    (stream : Bool) (options : List (String × String)) (msg : String) :
    query_model model query stream options (fun _ => .openAIError msg)
      = [.printed (couldNotCompleteMsg model msg)]
    ∧ (matchesCtxPattern msg = false →
        query_model model query stream options (fun _ => .badRequestError msg)
          = [.printed (generalExceptionMsg msg)]) := by
  refine ⟨rfl, fun h => ?_⟩
  simp [query_model, h]

/-- C2 witness: the amended statement at a concrete non-matching message. -/
theorem api_error_message_amended_witness :
    matchesCtxPattern "boom" = false
    ∧ query_model "gpt" (.str "q") true [] (fun _ => .badRequestError "boom")
        = [.printed (generalExceptionMsg "boom")] :=
  ⟨by decide,
   (api_error_message_amended "gpt" (.str "q") true [] "boom").2 (by decide)⟩

/-- C3: a non-streaming dispatch whose SDK call returns a response with at
least one choice invokes the callback exactly once, with the first choice's
message content, marshaled through `ida_kernwin.execute_sync` rather than
called directly. -/
theorem nonstreaming_success_callback (model : String) (query : QueryVal)
    (options : List (String × String)) (resp : Response) (c : RespChoice)
    (rest : List RespChoice) (h : resp.choices = c :: rest) :
    query_model model query false options (fun _ => .nonStream resp)
      = [.marshaledCallback c.message.content] := by
  simp [query_model, h]

/-- C3 witness: a one-choice response delivers one marshaled callback. -/
theorem nonstreaming_success_callback_witness :
    query_model "gpt" (.str "q") false [] (fun _ => .nonStream ⟨[⟨⟨"answer"⟩⟩]⟩)
      = [.marshaledCallback "answer"] :=
  nonstreaming_success_callback "gpt" (.str "q") [] ⟨[⟨⟨"answer"⟩⟩]⟩
    ⟨⟨"answer"⟩⟩ [] rfl

/-- C4: whenever the SDK call raises (context-length-exceeded, any other
API-level error, or any other failure), `query_model` produces exactly one
printed message, never invokes the callback, and terminates normally
(its total return type models that no exception reaches the caller). -/
theorem sdk_failure_only_printed (model : String) (query : QueryVal)
    (stream : Bool) (options : List (String × String)) (out : SDKOutcome)
    (h : out.isFailure = true) :
    ∃ msg, query_model model query stream options (fun _ => out)
      = [.printed msg] := by
  cases out with
  | nonStream resp => exact absurd h (by simp [SDKOutcome.isFailure])
  | streamChunks chunks => exact absurd h (by simp [SDKOutcome.isFailure])
  | badRequestError m =>
    by_cases hm : matchesCtxPattern m = true
    · exact ⟨tooBigMsg, by simp [query_model, hm]⟩
    · exact ⟨generalExceptionMsg m, by simp [query_model, hm]⟩
  | openAIError m => exact ⟨couldNotCompleteMsg model m, rfl⟩
  | otherError m => exact ⟨generalExceptionMsg m, rfl⟩

/-- C4 witness: a generic failure at a concrete input yields only a printed
message. -/
theorem sdk_failure_only_printed_witness :
    (SDKOutcome.otherError "kaboom").isFailure = true
    ∧ ∃ msg, query_model "gpt" (.str "q") false []
        (fun _ => .otherError "kaboom") = [.printed msg] :=
  ⟨rfl, sdk_failure_only_printed "gpt" (.str "q") false []
    (.otherError "kaboom") rfl⟩

/-- C5 counterexample: an `OpenAIError` that is not a `BadRequestError` but
whose message matches the context-length pattern is reported with the
"could not complete the request" message, not the "too big to analyze"
advisory: the pattern is only consulted for `BadRequestError`. -/
theorem context_length_pattern_counterexample :
    matchesCtxPattern ctxMsgEx = true
    ∧ query_model "gpt" (.str "q") false [] (fun _ => .openAIError ctxMsgEx)
        = [.printed (couldNotCompleteMsg "gpt" ctxMsgEx)]
    ∧ couldNotCompleteMsg "gpt" ctxMsgEx ≠ tooBigMsg :=
  ⟨by decide, rfl, by decide⟩

/-- C5 amended: a non-streaming dispatch whose SDK call raises a
`BadRequestError` whose message matches the context-length pattern prints the
"too big to analyze" advisory, invokes the callback zero times, and raises
nothing. -/
theorem context_length_advisory_amended (model : String) (query : QueryVal)
    (options : List (String × String)) (msg : String)
    (h : matchesCtxPattern msg = true) :
    query_model model query false options (fun _ => .badRequestError msg)
      = [.printed tooBigMsg] := by
  simp [query_model, h]

/-- C5 witness: the amended statement at a concrete matching message. -/
theorem context_length_advisory_amended_witness :
    matchesCtxPattern ctxMsgEx = true
    ∧ query_model "gpt" (.str "q") false []
        (fun _ => .badRequestError ctxMsgEx) = [.printed tooBigMsg] :=
  ⟨by decide,
   context_length_advisory_amended "gpt" (.str "q") [] ctxMsgEx (by decide)⟩

/-- C6: a successful discovery whose model-entries all carry an `id` key
returns exactly the `id` fields of the entries whose `object` field equals
"model", in order, excluding every other entry. -/
theorem supported_models_filters (data : List MEntry)
    (h : ∀ e ∈ data, e.object = some "model" → e.id.isSome) :
    supported_models (.ok data)
      = .ok (data.filterMap
          (fun e => if e.object = some "model" then e.id else none)) :=
  modelIds_eq data h

/-- C6 witness: the spec's example body (one "model" entry, one "other"
entry) yields exactly ["gpt-x"]. -/
theorem supported_models_filters_witness :
    (∀ e ∈ dataEx, e.object = some "model" → e.id.isSome)
    ∧ supported_models (.ok dataEx)
        = .ok (dataEx.filterMap
            (fun e => if e.object = some "model" then e.id else none))
    ∧ dataEx.filterMap
        (fun e => if e.object = some "model" then e.id else none)
      = ["gpt-x"] :=
  ⟨by decide, supported_models_filters dataEx (by decide), by decide⟩

/-- C7: discovery with no configured endpoint, or with any network/HTTP
failure (a non-success status included), returns the empty list without
raising; and whenever discovery returns a list, the adapter is configured
properly exactly when that list is nonempty. -/
theorem discovery_failure_empty_and_configured_iff :
    supported_models .noServer = .ok []
    ∧ supported_models .requestError = .ok []
    ∧ ∀ o l, supported_models o = .ok l →
        (is_configured_properly o = .ok true ↔ l ≠ []) := by
  refine ⟨rfl, rfl, fun o l h => ?_⟩
  simp [is_configured_properly, h, Except.map, List.length_pos]

/-- C7 witness: at the example body, discovery returns ["gpt-x"] and the
configured-check is equivalent to that list being nonempty. -/
theorem discovery_configured_witness :
    supported_models (.ok dataEx) = .ok ["gpt-x"]
    ∧ (is_configured_properly (.ok dataEx) = .ok true
        ↔ (["gpt-x"] : List String) ≠ []) :=
  ⟨rfl,
   discovery_failure_empty_and_configured_iff.2.2 (.ok dataEx) ["gpt-x"] rfl⟩

/-- C8: dispatching a plain string builds the same outbound request — and
hence the same whole dispatch — as dispatching the singleton user-role
message list wrapping it; a message-list query is passed through to the
request unchanged. -/
theorem string_query_same_request (model s : String) (stream : Bool)
    (options : List (String × String)) :
    build_request model (.str s) stream options
      = build_request model (.msgs [⟨"user", s⟩]) stream options
    ∧ (∀ sdk, query_model model (.str s) stream options sdk
        = query_model model (.msgs [⟨"user", s⟩]) stream options sdk)
    ∧ ∀ l, (build_request model (.msgs l) stream options).messages = .list l :=
  ⟨rfl, fun _ => rfl, fun _ => rfl⟩

/-- C9: a value of a proper subclass of `str` fails the `type(query) is str`
test, so it is not wrapped as a user message: it reaches the SDK call
unchanged as the `messages` argument. -/
theorem str_subclass_not_wrapped (model s : String) (stream : Bool)
    (options : List (String × String)) :
    (build_request model (.strSub s) stream options).messages = .rawStr s
    ∧ MessagesArg.rawStr s ≠ .list [⟨"user", s⟩] :=
  ⟨rfl, by simp⟩

/-- C10: `query_model_async` performs no observable effect on the caller's
thread and returns no value; the spawned worker runs `query_model` with the
identical arguments, so it produces the identical callback invocations and
printed messages — one marshaled callback on non-streaming success, one
callback per chunk on streaming success. -/
theorem async_same_behavior (model : String) (query : QueryVal) (stream : Bool)
    (options : List (String × String)) (sdk : Request → SDKOutcome) :
    (query_model_async model query stream options sdk).callerEvents = []
    ∧ (query_model_async model query stream options sdk).workerEvents
        = query_model model query stream options sdk
    ∧ (∀ resp c rest, resp.choices = c :: rest →
        (query_model_async model query false options
            (fun _ => .nonStream resp)).workerEvents
          = [.marshaledCallback c.message.content])
    ∧ ∀ chunks, (∀ ch ∈ chunks, ch.choices ≠ []) →
        (query_model_async model query true options
            (fun _ => .streamChunks chunks)).workerEvents
          = chunks.filterMap chunkEvent
        ∧ (chunks.filterMap chunkEvent).length = chunks.length := by
  refine ⟨rfl, rfl, fun resp c rest h => ?_, fun chunks h => ?_⟩
  · simp [query_model_async, query_model, h]
  · exact ⟨by simp [query_model_async, query_model, streamLoop_wf chunks h],
      filterMap_chunkEvent_length chunks h⟩

/-- C10 witness: an async non-streaming dispatch at a concrete one-choice
response spawns a worker whose trace is the single marshaled callback. -/
theorem async_same_behavior_witness :
    (query_model_async "gpt" (.str "q") false []
        (fun _ => .nonStream ⟨[⟨⟨"answer"⟩⟩]⟩)).workerEvents
      = [.marshaledCallback "answer"] :=
  (async_same_behavior "gpt" (.str "q") false []
      (fun _ => .nonStream ⟨[⟨⟨"answer"⟩⟩]⟩)).2.2.1
    ⟨[⟨⟨"answer"⟩⟩]⟩ ⟨⟨"answer"⟩⟩ [] rfl

end LiteLLM
